import Mathlib

/-!
Shallow embedding of the pagination-aware request/response core of the
py_jama_client library, and theorems checking the specification's claims
against it.

The embedding follows the Python source:
  * `py_jama_client/response.py` : `ClientResponse` (the envelope) and its
    `from_response` parser and `__add__` merge;
  * `py_jama_client/client.py` : `BaseClient.get_all`, `BaseClient.get_page`,
    `BaseClient.handle_response_status`, `BaseClient.__check_oauth_token`;
  * `py_jama_client/core.py` : `Core.__init__`, `Core.get`,
    `Core._check_oauth_token`.

JSON values are modelled by the inductive `Json` (Python `None` and JSON
`null` both map to `Json.null`, matching `json.loads`).  Python dicts are
modelled as association lists with first-occurrence lookup; `dict.update`
keeps existing keys in place with the new value and appends fresh keys in
order, which `dictUpdate` mirrors.  Exceptions are modelled by the
`Except JamaError` monad; `JamaError` covers the library's typed API
exceptions together with the untyped Python exceptions the code can raise
(`AttributeError`, `TypeError`, `ValueError`, `json.JSONDecodeError`).
The HTTP session is modelled as a function from requests to responses, and
the paginator threads an explicit request trace so that theorems can count
network calls.
-/

set_option autoImplicit false

universe u

/-- A JSON value as produced by Python's `json.loads`; `null` also stands for
Python `None` (the two are identified by the decoder). -/
inductive Json where
  | null
  | bool (b : Bool)
  | num (n : Int)
  | str (s : String)
  | arr (elems : List Json)
  | obj (fields : List (String × Json))

/-- First-occurrence association-list lookup, modelling Python `dict[k]` /
`dict.get(k)` on a duplicate-free association list. -/
def dlookup {α : Type u} (k : String) : List (String × α) → Option α
  | [] => none
  | p :: t => if p.1 = k then some p.2 else dlookup k t

/-- Whether the dictionary has the key (`k in d` in Python). -/
def dictContains {α : Type u} (d : List (String × α)) (k : String) : Bool :=
  (dlookup k d).isSome

/-- Python `a.update(b)` as a value: keys already in `a` keep their position
and receive `b`'s value on collision; keys only in `b` are appended in `b`'s
order. -/
def dictUpdate {α : Type u} (a b : List (String × α)) : List (String × α) :=
  a.map (fun p => match dlookup p.1 b with | some v => (p.1, v) | none => p)
    ++ b.filter (fun p => !(dictContains a p.1))

/-- The possible failure outcomes of the embedded code: the library's typed
exceptions from `py_jama_client.exceptions` (each carrying the `status_code`
and `reason` the source passes to the constructor) together with the untyped
Python exceptions the source can raise. -/
inductive JamaError where
  /-- `ValueError("Allowed results per page must be between 1 and 50")`. -/
  | valueError
  /-- An untyped Python `AttributeError` (e.g. `None.get(...)` or a
  reference to an attribute a class does not define). -/
  | attributeError
  /-- An untyped Python `TypeError` (e.g. `"x" in 5` or `None + 20`). -/
  | typeError
  /-- `json.JSONDecodeError` escaping from `response.json()`. -/
  | jsonDecodeError
  /-- An untyped Python `NameError`: client.py logs through the global
  `py_jama_rest_client_logger`, but that module defines only
  `py_jama_client_logger` (client.py:38) and never imports the former
  (the name lives in core.py's own namespace), so every reference to it in
  client.py raises `NameError`. -/
  | nameError
  | alreadyExists (statusCode : Int) (reason : Json)
  | unauthorized (statusCode : Int) (reason : Json)
  | resourceNotFound (statusCode : Int) (reason : Json)
  | tooManyRequests (statusCode : Int) (reason : Json)
  | apiClientError (statusCode : Int) (reason : Json)
  | apiServerError (statusCode : Int) (reason : String)
  | apiException (statusCode : Int) (reason : String)

/-- An HTTP response as the source consumes it: `status_code`, the decoded
body (`none` when the text is not valid JSON, in which case `json.loads`
raises `JSONDecodeError`), and the reason phrase the source reads as
`response.reason`. -/
structure Resp where
  status : Int
  body : Option Json
  reason : String

/-- Python attribute-style `v.get(k)`: on a dict it returns the value or
`None`; on any non-dict value (including `None`) it raises
`AttributeError`. -/
def pyGet (v : Json) (k : String) : Except JamaError Json :=
  match v with
  | .obj fields => .ok ((dlookup k fields).getD .null)
  | _ => .error .attributeError

/-- Using a Python value as an `int` (arithmetic or comparison); a non-number
raises `TypeError`. -/
def asInt (v : Json) : Except JamaError Int :=
  match v with
  | .num n => .ok n
  | _ => .error .typeError

/-- `BaseClient.handle_response_status` (client.py:320-407).  2xx returns the
status code before any logging.  4xx extracts
`response_json.get("meta").get("message")` with `"No Response"` as the
default kept only when `json.loads` fails (only `json.JSONDecodeError` is
caught; the `AttributeError` from a missing or null `meta` propagates from
inside the `try`, client.py:339).  Every path that survives message
extraction then logs through `py_jama_rest_client_logger` — client.py:345
on 4xx, :394 on 5xx, :404 on the fallback — a global that client.py never
defines or imports (line 38 defines `py_jama_client_logger` instead), so
the function raises `NameError` at the logging call: the subsequent
`already exists` / 401 / 404 / 429 / generic-client dispatch, the
`APIServerException` raise and the `APIException` fallback raise are all
unreachable. -/
def handle_response_status (response : Resp) : Except JamaError Int :=
  if 200 ≤ response.status ∧ response.status < 300 then
    .ok response.status
  else if 400 ≤ response.status ∧ response.status < 500 then
    match (match response.body with
           | none => Except.ok (Json.str "No Response")
           | some j => do
               let meta ← pyGet j "meta"
               pyGet meta "message") with
    | .error e => .error e
    | .ok _ => .error .nameError
  else if 500 ≤ response.status ∧ response.status < 600 then
    .error .nameError
  else
    .error .nameError

/-- `ClientResponse` (response.py): the envelope with its four fields.  The
embedding types `meta`, `links`, `linked` as dictionaries and `data` as a
list, which is the shape every code path in the claims exercises. -/
structure ClientResponse where
  meta : List (String × Json)
  links : List (String × Json)
  linked : List (String × Json)
  data : List Json

/-- Coerce a JSON value to dict fields; a non-dict raises `TypeError` (in
CPython the error would surface at the first `dict` operation applied to
the value, inside `get_all`). -/
def asObjFields (v : Json) : Except JamaError (List (String × Json)) :=
  match v with
  | .obj fields => .ok fields
  | _ => .error .typeError

/-- Coerce a JSON value to a list of items; a non-array raises `TypeError`
(in CPython the error would surface at the first `list` operation applied
to the value, inside `get_all`). -/
def asArr (v : Json) : Except JamaError (List Json) :=
  match v with
  | .arr elems => .ok elems
  | _ => .error .typeError

/-- `ClientResponse.from_response` (response.py:15-33): decode the body with
`response.json()` (a decode failure propagates), then read `meta`, `links`,
`linked` with default `{}`.  The source defaults a missing `data` to `{}`
(an empty dict); since the only use of `data` is iteration/extension, the
empty dict behaves as the empty sequence and is embedded as `[]`. -/
def from_response (body : Option Json) : Except JamaError ClientResponse :=
  match body with
  | none => .error .jsonDecodeError
  | some j => do
    let fields ← asObjFields j
    let meta ← asObjFields ((dlookup "meta" fields).getD (.obj []))
    let links ← asObjFields ((dlookup "links" fields).getD (.obj []))
    let linked ← asObjFields ((dlookup "linked" fields).getD (.obj []))
    let data ← asArr ((dlookup "data" fields).getD (.arr []))
    pure ⟨meta, links, linked, data⟩

/-- The merged envelope value produced by `ClientResponse.__add__`
(response.py:46-51): `meta`, `links` and `linked` are each shallow
`dict.update`s (for `linked` this replaces a colliding top-level bucket
wholesale), and `data` is list concatenation. -/
def clientResponseAdd (a b : ClientResponse) : ClientResponse :=
  { meta := dictUpdate a.meta b.meta
    links := dictUpdate a.links b.links
    linked := dictUpdate a.linked b.linked
    data := a.data ++ b.data }

/-- `ClientResponse.__add__` as a method on a heap of envelope objects
(references are natural numbers): it overwrites `self`'s four fields with
the merged values, leaves every other object alone, and returns the
reference `self` itself (`return self` in the source). -/
def clientResponseAddMethod (heap : Nat → ClientResponse) (self other : Nat) :
    (Nat → ClientResponse) × Nat :=
  (fun r => if r = self then clientResponseAdd (heap self) (heap other) else heap r,
   self)

/-- An outgoing HTTP request as a value: the url string handed to the httpx
session, the query parameters, the headers, and the basic-auth credential
pair if one is attached. -/
structure Req where
  url : String
  params : List (String × Json)
  headers : List (String × String)
  auth : Option (String × String)

/-- The pagination parameter pair `{"startAt": start_at, "maxResults":
allowed_results_per_page}` built by `BaseClient.get_page`
(client.py:305). -/
def paginationParams (start_at allowed_results_per_page : Int) : List (String × Json) :=
  [("startAt", Json.num start_at), ("maxResults", Json.num allowed_results_per_page)]

/-- The request `BaseClient.get_page` (client.py:292-318) actually issues: it
calls `self.__session.get(resource, params=params)` on the raw httpx
session, so the url is the bare relative `resource` string, no host /
api-version prefix is prepended, and neither an `Authorization` header nor
basic-auth credentials are attached. -/
def pageRequest (resource : String) (start_at : Int)
    (params : Option (List (String × Json))) (allowed_results_per_page : Int) : Req :=
  { url := resource
    params := match params with
      | none => paginationParams start_at allowed_results_per_page
      | some p => dictUpdate p (paginationParams start_at allowed_results_per_page)
    headers := []
    auth := none }

/-- `BaseClient.get_page` (client.py:292-318).  Merges the pagination pair
into the caller's params (mutating the caller's dict when one was passed:
the middle component is the caller-visible dict after the call), sends the
request on the raw session, validates via `handle_response_status` and
parses via `from_response`.  Returns (result, caller's params after the
call, the request issued). -/
def get_page (session : Req → Resp) (resource : String) (start_at : Int)
    (params : Option (List (String × Json))) (allowed_results_per_page : Int) :
    Except JamaError ClientResponse × Option (List (String × Json)) × Req :=
  let callerParams := params.map
    (fun p => dictUpdate p (paginationParams start_at allowed_results_per_page))
  let req := pageRequest resource start_at params allowed_results_per_page
  let response := session req
  match handle_response_status response with
  | .error e => (.error e, callerParams, req)
  | .ok _ => (from_response response.body, callerParams, req)

/-- The loop condition `len(data) < total_results` of `BaseClient.get_all`
(client.py:278); `total_results` is `none` while it still holds the initial
`float("inf")`. -/
def getAllKeepGoing (total_results : Option Int) (data : List Json) : Bool :=
  match total_results with
  | none => true
  | some t => (data.length : Int) < t

/-- One loop iteration's outcome: either the loop finished with an exception
propagating out of the iteration, or it continues with the updated
accumulator state (params, start_index, total_results, meta, links, linked,
data). -/
def getAllIter (session : Req → Resp) (resource : String)
    (params : Option (List (String × Json))) (start_index : Int)
    (meta links linked : List (String × Json)) (data : List Json) :
    (JamaError ⊕ (Int × Int ×
        List (String × Json) × List (String × Json) × List (String × Json) × List Json))
      × Option (List (String × Json)) × Req :=
  let step := get_page session resource start_index params 20
  match step.1 with
  | .error e => (.inl e, step.2.1, step.2.2)
  | .ok page =>
    let meta' := dictUpdate meta page.meta
    let links' := dictUpdate links page.links
    let linked' := dictUpdate linked page.linked
    let page_info := (dlookup "pageInfo" page.meta).getD .null
    match pyGet page_info "startIndex" with
    | .error e => (.inl e, step.2.1, step.2.2)
    | .ok startIndexJson =>
      match asInt startIndexJson with
      | .error e => (.inl e, step.2.1, step.2.2)
      | .ok si =>
        match pyGet page_info "totalResults" with
        | .error e => (.inl e, step.2.1, step.2.2)
        | .ok totalJson =>
          match asInt totalJson with
          | .error e => (.inl e, step.2.1, step.2.2)
          | .ok t =>
            (.inr (si + 20, t, meta', links', linked', data ++ page.data),
             step.2.1, step.2.2)

/-- The `while len(data) < total_results` loop of `BaseClient.get_all`
(client.py:272-290), with fuel for the unbounded iteration (`none` means the
fuel ran out; the source loop would still be running).  Each iteration calls
`get_page` without an `allowed_results_per_page` argument, so the page size
sent is the default 20, and advances `start_index` by the local
`allowed_results_per_page`, which line 273 has reassigned to 20.  The
`pageInfo` reads follow the source: `page.meta.get("pageInfo")` yields
`None` when absent (so the following `.get` raises `AttributeError`), and a
non-integer `startIndex`/`totalResults` raises `TypeError` at the addition /
comparison. -/
def getAllLoop (session : Req → Resp) (resource : String) :
    Nat → Option (List (String × Json)) → Int → Option Int →
    List (String × Json) → List (String × Json) → List (String × Json) →
    List Json → List Req →
    Option (Except JamaError ClientResponse × Option (List (String × Json)) × List Req)
  | 0, params, _, total_results, meta, links, linked, data, trace =>
    if getAllKeepGoing total_results data then none
    else some (.ok ⟨meta, links, linked, data⟩, params, trace)
  | f + 1, params, start_index, total_results, meta, links, linked, data, trace =>
    if getAllKeepGoing total_results data then
      match getAllIter session resource params start_index meta links linked data with
      | (.inl e, params', req) => some (.error e, params', trace ++ [req])
      | (.inr (si', t', meta', links', linked', data'), params', req) =>
        getAllLoop session resource f params' si' (some t')
          meta' links' linked' data' (trace ++ [req])
    else some (.ok ⟨meta, links, linked, data⟩, params, trace)

/-- `BaseClient.get_all` (client.py:256-290).  Validates
`allowed_results_per_page` against [1,50] (raising `ValueError` before any
request), then runs the pagination loop; note that line 273 immediately
reassigns the local `allowed_results_per_page = 20`, and `get_page` is
invoked without the parameter, so the validated caller value is never used
again.  Returns (result, caller's params after the call, the list of
requests issued). -/
def get_all (session : Req → Resp) (resource : String)
    (params : Option (List (String × Json)))
    (allowed_results_per_page : Int) (fuel : Nat) :
    Option (Except JamaError ClientResponse × Option (List (String × Json)) × List Req) :=
  if allowed_results_per_page < 1 ∨ 50 < allowed_results_per_page then
    some (.error .valueError, params, [])
  else
    getAllLoop session resource fuel params 0 none [] [] [] [] []

/-- The authentication-relevant state of a `Core` / `BaseClient` instance:
`__host_name` is set in `__init__` to `host + api_version` (core.py:113-114,
client.py:116-117); the OAuth token cache holds the bearer string with the
bookkeeping fields `__token_acquired_at` and `__token_expires_in`. -/
structure CoreState where
  hostName : String
  credentials : String × String
  oauth : Bool
  token : Option String
  tokenAcquiredAt : Int
  tokenExpiresIn : Int

/-- `Core.__init__` (core.py:103-124): stores `host + api_version` as the
fixed prefix; the token cache starts empty (the eager fetch in OAuth mode is
a separate acquisition step). -/
def coreInit (host : String) (credentials : String × String)
    (api_version : String) (oauth : Bool) : CoreState :=
  { hostName := host ++ api_version
    credentials := credentials
    oauth := oauth
    token := none
    tokenAcquiredAt := 0
    tokenExpiresIn := 0 }

/-- What a pre-request token check does before the actual HTTP request. -/
inductive RefreshOutcome where
  /-- Exactly one fresh-token acquisition is performed. -/
  | refreshed
  /-- The cached token is used as-is; no acquisition. -/
  | noRefresh
  /-- The attribute named by the call does not exist on the class, so the
  check raises `AttributeError`; no acquisition and no HTTP request
  happen. -/
  | raisesAttributeError

/-- `Core._check_oauth_token` (core.py:198-207).  With no cached token it
calls `self._get_fresh_token()`, which `Core` defines.  With a cached token
and `time_remaining < 60` it calls `self.__get_fresh_token()`, which name-
mangles to `_Core__get_fresh_token`; neither `Core`, `AbstractCore` nor
`AsyncCore` defines that attribute (the method is `_get_fresh_token`), so
the call raises `AttributeError` instead of refreshing. -/
def coreCheckOauthToken (st : CoreState) (now : Int) : RefreshOutcome :=
  match st.token with
  | none => .refreshed
  | some _ =>
    let time_elapsed := now - st.tokenAcquiredAt
    let time_remaining := st.tokenExpiresIn - time_elapsed
    if time_remaining < 60 then .raisesAttributeError
    else .noRefresh

/-- `BaseClient.__check_oauth_token` (client.py:203-212).  With no cached
token it calls `self._get_fresh_token()`, which `BaseClient` does not define
(its method is the mangled `_BaseClient__get_fresh_token`), raising
`AttributeError`.  With a cached token and `time_remaining < 60` it calls
`self.__get_fresh_token()`, which mangles to the defined
`_BaseClient__get_fresh_token` and performs exactly one acquisition. -/
def baseClientCheckOauthToken (st : CoreState) (now : Int) : RefreshOutcome :=
  match st.token with
  | none => .raisesAttributeError
  | some _ =>
    let time_elapsed := now - st.tokenAcquiredAt
    let time_remaining := st.tokenExpiresIn - time_elapsed
    if time_remaining < 60 then .refreshed
    else .noRefresh

/-- The request `Core.get` (core.py:144-153) issues for a resource: the url
is the stored `host + api_version` prefix concatenated with the relative
resource path; in OAuth mode the headers carry `Authorization: Bearer
<token>` (via `_add_auth_header`, with no caller-supplied headers), in
static mode the basic-auth credential pair is attached instead. -/
def coreGetRequest (st : CoreState) (resource : String)
    (params : List (String × Json)) : Req :=
  if st.oauth then
    { url := st.hostName ++ resource
      params := params
      headers := [("Authorization", "Bearer " ++ st.token.getD "")]
      auth := none }
  else
    { url := st.hostName ++ resource
      params := params
      headers := []
      auth := some st.credentials }

/-- The items a well-behaved mock server puts on one page: the integers
`s, s+1, ...` (`count` of them), so that item order identifies page order. -/
def itemsFrom (s : Int) (count : Nat) : List Json :=
  (List.range count).map (fun i => Json.num (s + (i : Int)))

/-- A standard envelope body for one page of a collection resource. -/
def pageBody (startIndex total : Int) (items : List Json) : Json :=
  .obj [("meta", .obj [("pageInfo", .obj
            [("startIndex", .num startIndex),
             ("resultCount", .num (items.length : Int)),
             ("totalResults", .num total)])]),
        ("links", .obj []),
        ("linked", .obj []),
        ("data", .arr items)]

/-- A faithful mock server for a collection of 30 items: it reads `startAt`
and `maxResults` from the request's query parameters and returns
`min(maxResults, 30 - startAt)` items starting at `startAt`, reporting
`totalResults = 30`. -/
def server30 : Req → Resp := fun req =>
  let s : Int := match (dlookup "startAt" req.params).getD .null with
    | .num n => n | _ => 0
  let m : Int := match (dlookup "maxResults" req.params).getD .null with
    | .num n => n | _ => 0
  { status := 200
    body := some (pageBody s 30 (itemsFrom s (min m (30 - s)).toNat))
    reason := "OK" }

/-- A mock server for an empty collection: every page reports
`totalResults = 0` with no items. -/
def emptyServer : Req → Resp := fun req =>
  let s : Int := match (dlookup "startAt" req.params).getD .null with
    | .num n => n | _ => 0
  { status := 200
    body := some (pageBody s 0 [])
    reason := "OK" }

/-- A server whose responses are never consulted (used where the theorem
shows no request is ever issued, or only the request value matters). -/
def inertServer : Req → Resp := fun _ =>
  { status := 200, body := some (Json.obj []), reason := "OK" }

/-- A demo OAuth-mode `Core` state with a cached token, host
`https://example.com` and the default `/rest/v1/` api version. -/
def demoCore : CoreState :=
  { coreInit "https://example.com" ("id", "secret") "/rest/v1/" true with
      token := some "tok", tokenAcquiredAt := 0, tokenExpiresIn := 3600 }


/-- Look up a nested entry of `linked`: the bucket at top-level key `k`,
then the entity at key `x` inside that bucket. -/
def nestedLinkedLookup (cr : ClientResponse) (k x : String) : Option Json :=
  match dlookup k cr.linked with
  | some (.obj fields) => dlookup x fields
  | _ => none

/-- An envelope whose `linked` has one bucket `itemtypes` holding entity
`30`. -/
def envLinkedA : ClientResponse :=
  ⟨[], [], [("itemtypes", .obj [("30", .str "typeA")])], [.num 1]⟩

/-- An envelope whose `linked` has one bucket `itemtypes` holding entity
`31` (a different entity in the same top-level bucket as `envLinkedA`). -/
def envLinkedB : ClientResponse :=
  ⟨[], [], [("itemtypes", .obj [("31", .str "typeB")])], [.num 2]⟩

/-- A two-object heap: object 0 is `envLinkedA`, every other reference is
`envLinkedB`. -/
def heapAB : Nat → ClientResponse := fun n => if n = 0 then envLinkedA else envLinkedB

/-- A caller-supplied params dict carrying only a `project` filter. -/
def paramsProject : List (String × Json) := [("project", Json.num 7)]

/-- A 400 response whose body is valid JSON but has no top-level `meta`
object. -/
def resp400NoMeta : Resp :=
  { status := 400, body := some (Json.obj [("foo", Json.num 1)]), reason := "Bad Request" }

/-- A 404 response whose `meta.message` contains the substring
`already exists`. -/
def resp404AlreadyExists : Resp :=
  { status := 404,
    body := some (Json.obj
      [("meta", Json.obj [("message", Json.str "item with this name already exists")])]),
    reason := "Not Found" }

/-- A 404 response with an ordinary `meta.message`. -/
def resp404Plain : Resp :=
  { status := 404,
    body := some (Json.obj [("meta", Json.obj [("message", Json.str "no such item")])]),
    reason := "Not Found" }

theorem dlookup_append {α : Type u} (k : String) (l₁ l₂ : List (String × α)) :
    dlookup k (l₁ ++ l₂) = (dlookup k l₁).orElse (fun _ => dlookup k l₂) := by
  induction l₁ with
  | nil => simp [dlookup, Option.orElse]
  | cons p t ih =>
    by_cases h : p.1 = k
    · simp [dlookup, h, Option.orElse]
    · simp [dlookup, h, ih]

theorem dlookup_updMap {α : Type u} (k : String) (a b : List (String × α)) :
    dlookup k (a.map (fun p => match dlookup p.1 b with | some v => (p.1, v) | none => p))
      = match dlookup k a with
        | some v => some ((dlookup k b).getD v)
        | none => none := by
  induction a with
  | nil => simp [dlookup]
  | cons p t ih =>
    rcases p with ⟨k₀, v₀⟩
    by_cases h : k₀ = k
    · subst h
      cases hb : dlookup k₀ b <;> simp [dlookup, hb]
    · cases hb : dlookup k₀ b <;> simp [dlookup, hb, h, ih]

theorem dlookup_filterNotIn {α : Type u} (k : String) (a b : List (String × α)) :
    dlookup k (b.filter (fun p => !(dictContains a p.1)))
      = if dictContains a k then none else dlookup k b := by
  induction b with
  | nil => simp [dlookup]
  | cons p t ih =>
    rcases p with ⟨k₁, v₁⟩
    by_cases hc : dictContains a k₁
    · by_cases h : k₁ = k
      · subst h
        simp [List.filter, hc, ih, dlookup]
      · simp [List.filter, hc, ih, dlookup, h]
    · by_cases h : k₁ = k
      · subst h
        simp [List.filter, hc, dlookup]
      · simp [List.filter, hc, ih, dlookup, h]

theorem dlookup_dictUpdate {α : Type u} (k : String) (a b : List (String × α)) :
    dlookup k (dictUpdate a b) = (dlookup k b).orElse (fun _ => dlookup k a) := by
  unfold dictUpdate
  rw [dlookup_append, dlookup_updMap, dlookup_filterNotIn]
  cases ha : dlookup k a <;> cases hb : dlookup k b <;>
    simp [Option.orElse, dictContains, ha, hb]

theorem handle_ok_of_2xx (r : Resp) (h : 200 ≤ r.status ∧ r.status < 300) :
    handle_response_status r = .ok r.status := by
  unfold handle_response_status
  rw [if_pos h]

theorem getAllLoop_exit (session : Req → Resp) (resource : String) (f : Nat)
    (params : Option (List (String × Json))) (start_index : Int)
    (total_results : Option Int)
    (meta links linked : List (String × Json)) (data : List Json)
    (trace : List Req)
    (h : getAllKeepGoing total_results data = false) :
    getAllLoop session resource f params start_index total_results meta links linked data trace
      = some (.ok ⟨meta, links, linked, data⟩, params, trace) := by
  cases f <;> simp only [getAllLoop] <;> rw [if_neg (by simp [h])]

theorem get_page_snd (session : Req → Resp) (resource : String) (start_at : Int)
    (params : Option (List (String × Json))) (allowed : Int) :
    (get_page session resource start_at params allowed).2
      = (params.map (fun p => dictUpdate p (paginationParams start_at allowed)),
         pageRequest resource start_at params allowed) := by
  unfold get_page
  dsimp only
  split <;> rfl

theorem getAllIter_snd (session : Req → Resp) (resource : String)
    (params : Option (List (String × Json))) (start : Int)
    (meta links linked : List (String × Json)) (data : List Json) :
    (getAllIter session resource params start meta links linked data).2
      = (get_page session resource start params 20).2 := by
  unfold getAllIter
  dsimp only
  repeat' split
  all_goals rfl

theorem pageRequest_params_some (resource : String) (start_at : Int)
    (p : List (String × Json)) (allowed : Int) :
    (pageRequest resource start_at (some p) allowed).params
      = dictUpdate p (paginationParams start_at allowed) := rfl

theorem dlookup_merged_startAt (p : List (String × Json)) (start allowed : Int) :
    dlookup "startAt" (dictUpdate p (paginationParams start allowed))
      = some (Json.num start) := by
  rw [dlookup_dictUpdate]; rfl

theorem dlookup_merged_maxResults (p : List (String × Json)) (start allowed : Int) :
    dlookup "maxResults" (dictUpdate p (paginationParams start allowed))
      = some (Json.num allowed) := by
  rw [dlookup_dictUpdate]
  simp [paginationParams, dlookup, Option.orElse]

theorem getAllLoop_params_last (f : Nat) :
    ∀ (session : Req → Resp) (resource : String) (p : List (String × Json))
      (start : Int) (total : Option Int)
      (meta links linked : List (String × Json)) (data : List Json)
      (trace : List Req) (res : Except JamaError ClientResponse)
      (params' : Option (List (String × Json))) (tr : List Req),
      getAllLoop session resource f (some p) start total meta links linked data trace
        = some (res, params', tr) →
      (params' = some p ∧ tr = trace) ∨
      (∃ last, tr.getLast? = some last ∧ params' = some last.params ∧
         ∃ s, dlookup "startAt" last.params = some (Json.num s) ∧
              dlookup "maxResults" last.params = some (Json.num 20)) := by
  induction f with
  | zero =>
    intro session resource p start total meta links linked data trace res params' tr h
    simp only [getAllLoop] at h
    split at h
    · exact absurd h (by simp)
    · simp only [Option.some.injEq, Prod.mk.injEq] at h
      exact Or.inl ⟨h.2.1.symm, h.2.2.symm⟩
  | succ f ih =>
    intro session resource p start total meta links linked data trace res params' tr h
    simp only [getAllLoop] at h
    split at h
    · have h2 := getAllIter_snd session resource (some p) start meta links linked data
      rw [get_page_snd] at h2
      rcases hout : getAllIter session resource (some p) start meta links linked data
        with ⟨out, cp, req⟩
      rw [hout] at h h2
      simp only [Prod.mk.injEq, Option.map] at h2
      obtain ⟨hcp, hreq⟩ := h2
      cases out with
      | inl e =>
        dsimp only at h
        simp only [Option.some.injEq, Prod.mk.injEq] at h
        refine Or.inr ⟨req, ?_, ?_, start, ?_, ?_⟩
        · rw [← h.2.2]
          exact List.getLast?_concat trace
        · rw [← h.2.1, hcp, hreq, pageRequest_params_some]
        · rw [hreq, pageRequest_params_some]
          exact dlookup_merged_startAt p start 20
        · rw [hreq, pageRequest_params_some]
          exact dlookup_merged_maxResults p start 20
      | inr st =>
        obtain ⟨si', t', meta', links', linked', data'⟩ := st
        dsimp only at h
        rw [hcp] at h
        rcases ih session resource (dictUpdate p (paginationParams start 20)) si'
            (some t') meta' links' linked' data' (trace ++ [req]) res params' tr h with
          hl | hr
        · refine Or.inr ⟨req, ?_, ?_, start, ?_, ?_⟩
          · rw [hl.2]
            exact List.getLast?_concat trace
          · rw [hl.1, hreq, pageRequest_params_some]
          · rw [hreq, pageRequest_params_some]
            exact dlookup_merged_startAt p start 20
          · rw [hreq, pageRequest_params_some]
            exact dlookup_merged_maxResults p start 20
        · exact Or.inr hr
    · simp only [Option.some.injEq, Prod.mk.injEq] at h
      exact Or.inl ⟨h.2.1.symm, h.2.2.symm⟩

/-- C1 (evaluation at the failing input).  The claim says `get_all` sends
every page request with `maxResults` equal to the caller-supplied page size
and issues `ceil(N / page_size)` requests.  The code validates the page size
and then discards it (client.py:273 reassigns the local to 20, and the
`get_page` call on line 279 does not forward it), so against a 30-item
collection with `page_size = 10` it issues 2 requests, both carrying
`maxResults = 20`, instead of the claimed 3 requests with `maxResults = 10`;
the returned envelope does hold all 30 items in server page order. -/
theorem c1_maxresults_hardcoded :
    get_all server30 "items" none 10 5
      = some (.ok ⟨[("pageInfo", Json.obj
                      [("startIndex", Json.num 20), ("resultCount", Json.num 10),
                       ("totalResults", Json.num 30)])], [], [],
                    itemsFrom 0 30⟩,
              none,
              [{ url := "items",
                 params := [("startAt", Json.num 0), ("maxResults", Json.num 20)],
                 headers := [], auth := none },
               { url := "items",
                 params := [("startAt", Json.num 20), ("maxResults", Json.num 20)],
                 headers := [], auth := none }])
    ∧ (itemsFrom 0 30).length = 30
    ∧ some (Json.num 20) ≠ some (Json.num 10)
    ∧ (2 : Nat) ≠ 3 := by
  refine ⟨rfl, rfl, by simp, by decide⟩

/-- C2 (evaluation at the failing input).  The claim says every page request
goes through the Authenticator and Transport, carrying the auth header and
the host + api-version prefix.  `BaseClient.get_page` (client.py:313)
instead calls the raw httpx session with the bare relative resource path:
the issued request's url is `"tags"` with empty headers and no basic auth,
whereas `Core.get` (core.py:144-153) for the same resource and params would
issue `https://example.com/rest/v1/tags` with an `Authorization: Bearer`
header. -/
theorem c2_get_page_bypasses_core :
    (get_page inertServer "tags" 0 none 20).2.2
        = { url := "tags",
            params := [("startAt", Json.num 0), ("maxResults", Json.num 20)],
            headers := [], auth := none }
    ∧ coreGetRequest demoCore "tags" [("startAt", Json.num 0), ("maxResults", Json.num 20)]
        = { url := "https://example.com/rest/v1/tags",
            params := [("startAt", Json.num 0), ("maxResults", Json.num 20)],
            headers := [("Authorization", "Bearer tok")], auth := none }
    ∧ ("tags" : String) ≠ "https://example.com/rest/v1/tags"
    ∧ dlookup "Authorization" ((get_page inertServer "tags" 0 none 20).2.2).headers = none
    ∧ ((get_page inertServer "tags" 0 none 20).2.2).auth = none := by
  exact ⟨rfl, rfl, by decide, rfl, rfl⟩

/-- C3 (evaluation at the failing input).  The claim says that with a cached
token whose remaining lifetime is under 60 seconds the next call performs
exactly one refresh before its HTTP request, and none otherwise.
`demoCore` holds a token acquired at 0 with `expires_in = 3600`.  At
`now = 3550` (50 seconds remaining) `Core._check_oauth_token` calls
`self.__get_fresh_token()`, whose mangled name `_Core__get_fresh_token` no
class in the hierarchy defines, so it raises `AttributeError` and performs
no refresh — while `BaseClient.__check_oauth_token` performs exactly one
refresh as claimed.  At `now = 1000` (2600 seconds remaining) both perform
zero refreshes, as claimed. -/
theorem c3_core_refresh_raises :
    coreCheckOauthToken demoCore 3550 = .raisesAttributeError
    ∧ baseClientCheckOauthToken demoCore 3550 = .refreshed
    ∧ demoCore.tokenAcquiredAt + demoCore.tokenExpiresIn - 3550 < 60
    ∧ coreCheckOauthToken demoCore 1000 = .noRefresh
    ∧ baseClientCheckOauthToken demoCore 1000 = .noRefresh
    ∧ 60 ≤ demoCore.tokenAcquiredAt + demoCore.tokenExpiresIn - 1000 := by
  exact ⟨rfl, rfl, by decide, rfl, rfl, by decide⟩

/-- C4 (evaluation at the failing input).  The claim says 4xx responses
dispatch to the typed errors with the `already exists` message check taking
priority over the status, 5xx raises the server error and any remaining
status the `APIException` fallback.  In client.py every one of those raises
sits after a logging call through `py_jama_rest_client_logger`
(client.py:345, :394, :404), a name the module never defines (line 38
defines `py_jama_client_logger`) or imports, so `handle_response_status`
instead raises `NameError` on every 4xx whose message extraction completes
— with or without an `already exists` message — on every 5xx, and on every
fallback status; only the 2xx branch, which returns before any logging,
behaves as claimed, and the `NameError` is none of the typed errors. -/
theorem c4_logging_name_error :
    handle_response_status resp404AlreadyExists = .error .nameError
    ∧ handle_response_status resp404Plain = .error .nameError
    ∧ handle_response_status { status := 500, body := none, reason := "Internal Server Error" }
        = .error .nameError
    ∧ handle_response_status { status := 302, body := none, reason := "Found" }
        = .error .nameError
    ∧ handle_response_status { status := 200, body := none, reason := "OK" } = .ok 200
    ∧ JamaError.nameError ≠ .alreadyExists 404 (Json.str "item with this name already exists")
    ∧ JamaError.nameError ≠ .resourceNotFound 404 (Json.str "no such item") := by
  refine ⟨rfl, rfl, rfl, rfl, rfl, by simp, by simp⟩

/-- C5 counterexample: the claim says the `linked` merge of the combine
operation goes one level deeper and never drops a key, but
`ClientResponse.__add__` does `self.linked.update(other.linked)`, a shallow
update.  Merging `envLinkedA` (bucket `itemtypes` holding entity `30`) with
`envLinkedB` (bucket `itemtypes` holding entity `31`) replaces the bucket
wholesale and drops entity `30`, which only operand `a` held. -/
theorem c5_linked_merge_counterexample :
    nestedLinkedLookup envLinkedA "itemtypes" "30" = some (.str "typeA")
    ∧ nestedLinkedLookup envLinkedB "itemtypes" "30" = none
    ∧ nestedLinkedLookup (clientResponseAdd envLinkedA envLinkedB) "itemtypes" "30" = none
    ∧ some (Json.str "typeA") ≠ (none : Option Json) := ⟨rfl, rfl, rfl, by simp⟩

/-- C5 amended: the combine operation's `linked` merge is shallow — for each
top-level key, `b`'s bucket wholesale replaces `a`'s when present (so
top-level keys present in either operand survive, but nested entries of a
colliding bucket of `a` are dropped) — while `data` is concatenated in order
(`a`'s items first) and the concatenation is associative. -/
theorem c5_linked_merge_shallow (a b c : ClientResponse) (k : String) :
    dlookup k (clientResponseAdd a b).linked
      = (dlookup k b.linked).orElse (fun _ => dlookup k a.linked)
    ∧ (clientResponseAdd a b).data = a.data ++ b.data
    ∧ (clientResponseAdd (clientResponseAdd a b) c).data
      = (clientResponseAdd a (clientResponseAdd b c)).data := by
  refine ⟨dlookup_dictUpdate k a.linked b.linked, rfl, ?_⟩
  simp [clientResponseAdd, List.append_assoc]

/-- C6: a page size outside [1,50] makes `get_all` fail with the client-side
`ValueError` immediately — the request trace is empty, so no network call is
made — and the `ValueError` is a distinct error from every HTTP-derived
typed error. -/
theorem c6_page_size_precondition (session : Req → Resp) (resource : String)
    (params : Option (List (String × Json))) (page_size : Int) (fuel : Nat)
    (h : page_size < 1 ∨ 50 < page_size) :
    get_all session resource params page_size fuel
      = some (.error .valueError, params, [])
    ∧ (∀ sc r, JamaError.valueError ≠ .alreadyExists sc r)
    ∧ (∀ sc r, JamaError.valueError ≠ .unauthorized sc r)
    ∧ (∀ sc r, JamaError.valueError ≠ .resourceNotFound sc r)
    ∧ (∀ sc r, JamaError.valueError ≠ .tooManyRequests sc r)
    ∧ (∀ sc r, JamaError.valueError ≠ .apiClientError sc r)
    ∧ (∀ sc r, JamaError.valueError ≠ .apiServerError sc r)
    ∧ (∀ sc r, JamaError.valueError ≠ .apiException sc r) := by
  refine ⟨?_, by simp, by simp, by simp, by simp, by simp, by simp, by simp⟩
  unfold get_all
  rw [if_pos h]

/-- Witness for C6: `page_size = 0` and `page_size = 51` both raise the
`ValueError` with an empty request trace. -/
theorem c6_page_size_precondition_witness :
    (get_all inertServer "tags" (some paramsProject) 0 5
       = some (.error .valueError, some paramsProject, []))
    ∧ (get_all inertServer "tags" none 51 5 = some (.error .valueError, none, [])) :=
  ⟨(c6_page_size_precondition inertServer "tags" (some paramsProject) 0 5
      (Or.inl (by decide))).1,
   (c6_page_size_precondition inertServer "tags" (none) 51 5
      (Or.inr (by decide))).1⟩

/-- C7: when the first page reports `totalResults = 0` with no items,
`get_all` issues exactly one page request (the trace is the singleton first
request: the loop condition is only re-checked after the first fetch) and
returns an envelope with empty `data`. -/
theorem c7_empty_collection (session : Req → Resp) (resource : String)
    (params : Option (List (String × Json))) (page_size : Int) (f : Nat)
    (page : ClientResponse) (piFields : List (String × Json)) (s0 : Int)
    (h1 : 1 ≤ page_size) (h2 : page_size ≤ 50)
    (hstatus : 200 ≤ (session (pageRequest resource 0 params 20)).status ∧
               (session (pageRequest resource 0 params 20)).status < 300)
    (hparse : from_response (session (pageRequest resource 0 params 20)).body = .ok page)
    (hdata : page.data = [])
    (hpi : dlookup "pageInfo" page.meta = some (Json.obj piFields))
    (hsi : dlookup "startIndex" piFields = some (Json.num s0))
    (htot : dlookup "totalResults" piFields = some (Json.num 0)) :
    ∃ cr params', get_all session resource params page_size (f + 1)
        = some (.ok cr, params', [pageRequest resource 0 params 20])
      ∧ cr.data = [] := by
  have hng : ¬(page_size < 1 ∨ 50 < page_size) := by omega
  have hresp := handle_ok_of_2xx (session (pageRequest resource 0 params 20)) hstatus
  have hstep : get_page session resource 0 params 20
      = (.ok page,
         params.map (fun p => dictUpdate p (paginationParams 0 20)),
         pageRequest resource 0 params 20) := by
    unfold get_page
    dsimp only
    rw [hresp, hparse]
  have hiter : getAllIter session resource params 0 [] [] [] []
      = (.inr (s0 + 20, 0, dictUpdate [] page.meta, dictUpdate [] page.links,
               dictUpdate [] page.linked, [] ++ page.data),
         params.map (fun p => dictUpdate p (paginationParams 0 20)),
         pageRequest resource 0 params 20) := by
    unfold getAllIter
    rw [hstep]
    simp [pyGet, asInt, hpi, hsi, htot]
  refine ⟨⟨dictUpdate [] page.meta, dictUpdate [] page.links,
            dictUpdate [] page.linked, [] ++ page.data⟩,
          params.map (fun p => dictUpdate p (paginationParams 0 20)), ?_,
          by simp [hdata]⟩
  unfold get_all
  rw [if_neg hng]
  simp only [getAllLoop]
  rw [if_pos (show getAllKeepGoing none [] = true from rfl), hiter]
  exact getAllLoop_exit session resource f _ _ _ _ _ _ _ _
    (by simp [getAllKeepGoing, hdata])

/-- Witness for C7: against `emptyServer` (every page reports
`totalResults = 0`), `get_all` with page size 20 and fuel 5 issues exactly
one request and returns empty `data`. -/
theorem c7_empty_collection_witness :
    ∃ cr params', get_all emptyServer "projects" none 20 (4 + 1)
        = some (.ok cr, params', [pageRequest "projects" 0 none 20])
      ∧ cr.data = [] :=
  c7_empty_collection emptyServer "projects" none 20 4
    ⟨[("pageInfo", Json.obj
        [("startIndex", Json.num 0), ("resultCount", Json.num 0),
         ("totalResults", Json.num 0)])], [], [], []⟩
    [("startIndex", Json.num 0), ("resultCount", Json.num 0), ("totalResults", Json.num 0)]
    0 (by decide) (by decide) (by constructor <;> decide) rfl rfl rfl rfl rfl

/-- C8: `ClientResponse.__add__` is an in-place mutation, not a pure
combine.  On a heap of envelope objects, invoking it on distinct references
`self` and `other` returns the reference `self` itself, overwrites `self`'s
stored fields with the merged values (in particular `self.data` becomes the
concatenation `self.data ++ other.data`), and leaves `other`'s stored fields
unchanged. -/
theorem c8_add_mutates_self_in_place (heap : Nat → ClientResponse) (self other : Nat)
    (h : self ≠ other) :
    (clientResponseAddMethod heap self other).2 = self
    ∧ (clientResponseAddMethod heap self other).1 self
        = clientResponseAdd (heap self) (heap other)
    ∧ ((clientResponseAddMethod heap self other).1 self).data
        = (heap self).data ++ (heap other).data
    ∧ (clientResponseAddMethod heap self other).1 other = heap other := by
  refine ⟨rfl, by simp [clientResponseAddMethod],
    by simp [clientResponseAddMethod, clientResponseAdd], ?_⟩
  simp [clientResponseAddMethod, Ne.symm h]

/-- Witness for C8 on the concrete two-object heap `heapAB`. -/
theorem c8_add_mutates_self_in_place_witness :
    (clientResponseAddMethod heapAB 0 1).2 = 0
    ∧ (clientResponseAddMethod heapAB 0 1).1 0 = clientResponseAdd (heapAB 0) (heapAB 1)
    ∧ ((clientResponseAddMethod heapAB 0 1).1 0).data = (heapAB 0).data ++ (heapAB 1).data
    ∧ (clientResponseAddMethod heapAB 0 1).1 1 = heapAB 1 :=
  c8_add_mutates_self_in_place heapAB 0 1 (by decide)

/-- C9: for a 4xx response whose body is valid JSON but is an object with no
top-level `meta` (or with `meta` null), `handle_response_status` raises the
untyped `AttributeError` (from `None.get("message")`) rather than any typed
error carrying the `No Response` sentinel: the `except` clause only catches
`json.JSONDecodeError`. -/
theorem c9_missing_meta_is_attribute_error (r : Resp) (kvs : List (String × Json))
    (h4 : 400 ≤ r.status) (h5 : r.status < 500)
    (hb : r.body = some (Json.obj kvs))
    (hm : dlookup "meta" kvs = none ∨ dlookup "meta" kvs = some Json.null) :
    handle_response_status r = .error .attributeError := by
  unfold handle_response_status
  rw [if_neg (by omega : ¬(200 ≤ r.status ∧ r.status < 300)), if_pos ⟨h4, h5⟩, hb]
  rcases hm with hm | hm <;> simp [pyGet, hm, Except.bind, bind]

/-- Witness for C9: a 400 response whose JSON body lacks `meta`. -/
theorem c9_missing_meta_is_attribute_error_witness :
    handle_response_status resp400NoMeta = .error .attributeError :=
  c9_missing_meta_is_attribute_error resp400NoMeta [("foo", Json.num 1)]
    (by decide) (by decide) rfl (Or.inl rfl)

/-- C10 counterexample: a `get_all` call with a non-None params mapping and
`page_size = 0` raises (the `ValueError`) with zero requests issued, and the
caller's mapping still contains neither `startAt` nor `maxResults` — so the
claim's "after the call returns (or raises)" fails for calls that never
issue a page request. -/
theorem c10_precondition_leaves_params_untouched :
    get_all inertServer "tags" (some paramsProject) 0 5
      = some (.error .valueError, some paramsProject, [])
    ∧ dlookup "startAt" paramsProject = none
    ∧ dlookup "maxResults" paramsProject = none := ⟨rfl, rfl, rfl⟩

/-- C10 amended: every `get_page` call with a non-None params mapping
mutates it in place to the merged dict — which is exactly the issued
request's params, containing `startAt` and `maxResults` with the request's
values, whether or not the call then raises — and every `get_all` call with
a non-None params mapping that issues at least one page request ends (also
when it ends by raising) with the caller's mapping equal to the last issued
request's params, containing `startAt` and `maxResults` (the latter always
20). -/
theorem c10_params_mutation (session : Req → Resp) (resource : String) :
    (∀ (start_at : Int) (p : List (String × Json)) (allowed : Int),
       (get_page session resource start_at (some p) allowed).2.1
         = some (dictUpdate p (paginationParams start_at allowed))
       ∧ (get_page session resource start_at (some p) allowed).2.2.params
         = dictUpdate p (paginationParams start_at allowed)
       ∧ dlookup "startAt" (dictUpdate p (paginationParams start_at allowed))
         = some (Json.num start_at)
       ∧ dlookup "maxResults" (dictUpdate p (paginationParams start_at allowed))
         = some (Json.num allowed))
    ∧ (∀ (p : List (String × Json)) (page_size : Int) (fuel : Nat)
         (res : Except JamaError ClientResponse)
         (params' : Option (List (String × Json))) (tr : List Req),
         get_all session resource (some p) page_size fuel = some (res, params', tr) →
         tr ≠ [] →
         ∃ last, tr.getLast? = some last ∧ params' = some last.params ∧
           ∃ s, dlookup "startAt" last.params = some (Json.num s) ∧
                dlookup "maxResults" last.params = some (Json.num 20)) := by
  constructor
  · intro start_at p allowed
    refine ⟨?_, ?_, dlookup_merged_startAt p start_at allowed,
      dlookup_merged_maxResults p start_at allowed⟩
    · rw [show (get_page session resource start_at (some p) allowed).2.1
          = ((get_page session resource start_at (some p) allowed).2).1 from rfl,
        get_page_snd]
      rfl
    · rw [show (get_page session resource start_at (some p) allowed).2.2
          = ((get_page session resource start_at (some p) allowed).2).2 from rfl,
        get_page_snd]
      rfl
  · intro p page_size fuel res params' tr h hne
    unfold get_all at h
    split at h
    · simp only [Option.some.injEq, Prod.mk.injEq] at h
      exact absurd h.2.2.symm hne
    · rcases getAllLoop_params_last fuel session resource p 0 none [] [] [] [] []
          res params' tr h with hl | hr
      · exact absurd hl.2 hne
      · exact hr

/-- Witness for C10 (amended): a one-page `get_all` run against
`emptyServer` with a `project` params dict ends with the mapping equal to
the single issued request's params, holding `startAt = 0` and
`maxResults = 20`. -/
theorem c10_params_mutation_witness :
    ∃ last, [(get_page emptyServer "projects" 0 (some paramsProject) 20).2.2].getLast?
        = some last
      ∧ some [("project", Json.num 7), ("startAt", Json.num 0), ("maxResults", Json.num 20)]
        = some last.params
      ∧ ∃ s, dlookup "startAt" last.params = some (Json.num s) ∧
             dlookup "maxResults" last.params = some (Json.num 20) :=
  (c10_params_mutation emptyServer "projects").2 paramsProject 20 5
    (.ok ⟨[("pageInfo", Json.obj
        [("startIndex", Json.num 0), ("resultCount", Json.num 0),
         ("totalResults", Json.num 0)])], [], [], []⟩)
    (some [("project", Json.num 7), ("startAt", Json.num 0), ("maxResults", Json.num 20)])
    [(get_page emptyServer "projects" 0 (some paramsProject) 20).2.2]
    rfl (by simp)
